import Mathlib

set_option maxHeartbeats 1000000
set_option autoImplicit false

/-! Shallow embedding of src/main.py of the Tana Webclip service: the text
normalizer, the rich-text extractor, the section builder, metadata
extraction, node assembly and the request pipeline, together with theorems
settling the specification claims about them. -/

/-! ## Text Normalizer (clean_text, src/main.py lines 51-60) -/

/-- Whitespace class of the Python regex \s and of str.strip, ASCII part. -/
def pythonIsWS (c : Char) : Bool :=
  c = ' ' || c = '\t' || c = '\n' || c = '\r' || c = '\x0b' || c = '\x0c'

/-- Character class of the regex [\r\n\t]. -/
def isCRLFTab (c : Char) : Bool :=
  c = '\r' || c = '\n' || c = '\t'

/-- Substitution of every maximal run of characters matching p by a single
space, as a state machine carrying whether we are inside a run. -/
def collapseRunsGo (p : Char → Bool) : Bool → List Char → List Char
  | _, [] => []
  | inRun, c :: cs =>
    if p c then
      (if inRun then collapseRunsGo p true cs else ' ' :: collapseRunsGo p true cs)
    else c :: collapseRunsGo p false cs

/-- Replace every maximal run of characters matching p by one space. -/
def collapseRuns (p : Char → Bool) (l : List Char) : List Char :=
  collapseRunsGo p false l

/-- str.strip: drop whitespace at both ends. -/
def pystrip (l : List Char) : List Char :=
  ((l.dropWhile pythonIsWS).reverse.dropWhile pythonIsWS).reverse

/-- The normalization part of clean_text, src/main.py lines 54-57: replace
the non-breaking space by a space, collapse every run matching [\r\n\t] to
one space, collapse every whitespace run to one space, then strip. -/
def pynorm (s : String) : String :=
  let t1 := s.toList.map (fun c => if c = '\u00A0' then ' ' else c)
  let t2 := collapseRuns isCRLFTab t1
  let t3 := collapseRuns pythonIsWS t2
  String.mk (pystrip t3)

/-- str.lower, character by character (agrees with Python on ASCII). -/
def pylower (s : String) : String :=
  String.mk (s.toList.map Char.toLower)

/-- clean_text, src/main.py lines 51-60. The Python argument is None or a
str, and the guard not text holds exactly for None and the empty string.
After normalization the exact string "undefined" in quotes, or any letter
case of the bare word undefined, is rejected. -/
def clean_text : Option String → Option String
  | none => none
  | some t =>
    if t.isEmpty then none
    else
      let u := pynorm t
      if u = "\"undefined\"" || pylower u = "undefined" then none
      else some u

/-- A value the callers of clean_text treat as missing text: Python
falsiness of an Optional str, that is None or the empty string. -/
def is_absent : Option String → Bool
  | none => true
  | some s => s.isEmpty

/-! ## HTML model (BeautifulSoup nodes) -/

/-- A parsed HTML node: a Tag with a name, attributes and children, or a
NavigableString. -/
inductive HNode : Type where
  | tag (name : String) (attrs : List (String × String)) (children : List HNode) : HNode
  | text (s : String) : HNode

def HNode.isTag : HNode → Bool
  | .tag _ _ _ => true
  | .text _ => false

mutual
/-- All descendant nodes of a node in document order, the node itself
excluded, as in the descendants property of a Tag. -/
def descendants : HNode → List HNode
  | .text _ => []
  | .tag _ _ cs => descList cs

/-- Descendant closure of a sibling list in document order. -/
def descList : List HNode → List HNode
  | [] => []
  | c :: cs => c :: (descendants c ++ descList cs)
end

mutual
/-- Concatenation of all descendant string contents, as in Tag.get_text. -/
def get_text : HNode → String
  | .text s => s
  | .tag _ _ cs => get_textList cs

def get_textList : List HNode → String
  | [] => ""
  | c :: cs => get_text c ++ get_textList cs
end

/-- Attribute lookup, Tag.get, returning none when the attribute is
missing. -/
def getAttr (attrs : List (String × String)) (k : String) : Option String :=
  (attrs.find? (fun p => p.1 == k)).map Prod.snd

/-- Tag.get with a default value. -/
def getAttrD (attrs : List (String × String)) (k d : String) : String :=
  (getAttr attrs k).getD d

/-! ## Rich-Text Extractor (extract_rich_text, src/main.py lines 62-82) -/

/-- The fragments one descendant contributes in the loop of
extract_rich_text, src/main.py lines 65-79: an anchor Tag with a truthy
href contributes the bracketed link when its cleaned text is truthy; any
other Tag contributes nothing; a string node contributes its cleaned text
when truthy. Note that the text inside an anchor appears again as its own
descendant string node. -/
def richPart (n : HNode) : List String :=
  match n with
  | .tag nm attrs _ =>
    if nm = "a" then
      match getAttr attrs "href" with
      | some href =>
        if href.isEmpty then []
        else
          match clean_text (some (get_text n)) with
          | some t => if t.isEmpty then [] else ["[" ++ t ++ "](" ++ href ++ ")"]
          | none => []
      | none => []
    else []
  | .text s =>
    match clean_text (some s) with
    | some t => if t.isEmpty then [] else [t]
    | none => []

/-- extract_rich_text, src/main.py lines 62-82: collect the fragments of
all descendants in document order, join them with single spaces, and clean
the joined string. -/
def extract_rich_text (element : HNode) : Option String :=
  let parts := ((descendants element).map richPart).flatten
  clean_text (some (" ".intercalate parts))

/-! ## Section Builder (extract_structured_content, src/main.py 85-118) -/

/-- Transient section record: the Python dict with keys name and children;
children holds the rich texts, each wrapped as a name-only dict when the
section is emitted into the node tree. -/
structure Section where
  name : Option String
  children : List String
deriving DecidableEq, Repr

/-- One iteration of the traversal loop of extract_structured_content,
src/main.py lines 100-115, on state (structured, current_section). A tag
named nav, summary or details is skipped by continue, which skips only
that element, not its descendants; h1, h2, h3 flush the current section
(appended only when its children are non-empty) and start a new one named
by the cleaned heading text; p and li append their rich text when truthy. -/
def sbStep (st : List Section × Section) (el : HNode) : List Section × Section :=
  match el with
  | .text _ => st
  | .tag nm _ _ =>
    let tg := pylower nm
    if tg = "nav" || tg = "summary" || tg = "details" then st
    else if tg = "h1" || tg = "h2" || tg = "h3" then
      (st.1 ++ (if st.2.children.isEmpty then [] else [st.2]),
       { name := clean_text (some (get_text el)), children := [] })
    else if tg = "p" || tg = "li" then
      match extract_rich_text el with
      | some r => if r.isEmpty then st else (st.1, { st.2 with children := st.2.children ++ [r] })
      | none => st
    else st

/-- extract_structured_content, src/main.py lines 85-118. A BeautifulSoup
Tag is falsy when it has no contents, so a missing or empty body yields no
sections; find_all with recursion visits every descendant Tag in document
order; the final current section is flushed after the loop. -/
def extract_structured_content (body : Option HNode) : List Section :=
  match body with
  | none => []
  | some (.text _) => []
  | some (.tag _ _ cs) =>
    if cs.isEmpty then []
    else
      let st := ((descList cs).filter HNode.isTag).foldl sbStep
        ([], { name := some "", children := [] })
      st.1 ++ (if st.2.children.isEmpty then [] else [st.2])

/-! ## Tana node model (the dicts assembled in parse_and_post_internal) -/

/-- File attachment payload of an image child node. -/
structure FileAttachment where
  name : String
  mimeType : String
  content : String
deriving DecidableEq, Repr

/-- A node dict sent to the Tana Input API; a dict key that is not present
is modelled as none. The fields are name, description, type, attributeId,
file and children. -/
inductive TanaNode : Type where
  | mk (name : Option String) (description : Option String) (typ : Option String)
      (attributeId : Option String) (file : Option FileAttachment)
      (children : Option (List TanaNode)) : TanaNode

def TanaNode.nameOf : TanaNode → Option String
  | .mk n _ _ _ _ _ => n

def TanaNode.descOf : TanaNode → Option String
  | .mk _ d _ _ _ _ => d

def TanaNode.childrenOf : TanaNode → Option (List TanaNode)
  | .mk _ _ _ _ _ c => c

/-- The dict with only a name key, as appended for each rich text. -/
def leafNode (s : String) : TanaNode :=
  .mk (some s) none none none none none

/-- The section dict as it sits inside the children of the root node:
name plus the list of name-only dicts. -/
def sectionToNode (s : Section) : TanaNode :=
  .mk s.name none none none none (some (s.children.map leafNode))

/-- The terminal marker appended on reaching the section cap,
src/main.py lines 190-193. -/
def clipMarker : TanaNode :=
  .mk (some "⚠️ Content clipped") (some "Only the first 100 sections were included.")
    none none none none

/-- Python truthiness of an Optional str. -/
def truthyOpt : Option String → Bool
  | none => false
  | some s => !s.isEmpty

/-- The filter of src/main.py line 195: section.get of name is truthy and
the children value is truthy. A section built by
extract_structured_content always carries the children key, so the
children-key-missing alternative of the Python condition never fires. -/
def sectionKept (s : Section) : Bool :=
  truthyOpt s.name && !s.children.isEmpty

def MAX_SECTIONS : Nat := 100

/-- The section loop of src/main.py lines 188-196: the enumerate index i
is threaded; on i at the cap the clip marker is appended and the loop
breaks; otherwise a section passing the filter is appended. -/
def section_children : Nat → List Section → List TanaNode
  | _, [] => []
  | i, s :: rest =>
    if MAX_SECTIONS ≤ i then [clipMarker]
    else (if sectionKept s then [sectionToNode s] else []) ++ section_children (i + 1) rest

/-- The metadata child built in src/main.py lines 203-216 for a cleaned
key and value: name is the string Meta: followed by the cleaned key, and
the cleaned value is the name of the single child of a field child with
attributeId nodeID. -/
def metaNode (k v : String) : TanaNode :=
  .mk (some ("Meta: " ++ k)) none none none none
    (some [.mk none none (some "field") (some "nodeID") none (some [leafNode v])])

/-- One iteration of the metadata loop of src/main.py lines 199-216: clean
key and value and keep the pair only when both are truthy. -/
def metaEntry (kv : String × String) : Option TanaNode :=
  match clean_text (some kv.1), clean_text (some kv.2) with
  | some k, some v => if !k.isEmpty && !v.isEmpty then some (metaNode k v) else none
  | _, _ => none

/-- The metadata children appended by the loop of src/main.py 199-216. -/
def meta_children (merged : List (String × String)) : List TanaNode :=
  merged.filterMap metaEntry

/-! ## Python dict model (insertion-ordered association list) -/

/-- Assignment into a Python dict: an existing key keeps its position and
gets the new value, a new key is appended at the end. -/
def dinsert (d : List (String × String)) (k v : String) : List (String × String) :=
  if d.any (fun p => p.1 == k) then d.map (fun p => if p.1 == k then (k, v) else p)
  else d ++ [(k, v)]

/-- Dict lookup: value of the first pair carrying the key. -/
def dlookup : List (String × String) → String → Option String
  | [], _ => none
  | p :: d, k => if p.1 == k then some p.2 else dlookup d k

/-- str.startswith, over the character lists. -/
def strStartsWith (s pre : String) : Bool :=
  List.isPrefixOf pre.toList s.toList

/-- str.endswith, over the character lists. -/
def strEndsWith (s suf : String) : Bool :=
  List.isSuffixOf suf.toList s.toList

/-- The dict union written with double stars in src/main.py line 199:
start from the first dict and assign every pair of the second in order. -/
def dmerge (a b : List (String × String)) : List (String × String) :=
  b.foldl (fun d p => dinsert d p.1 p.2) a

/-- The meta loop of src/main.py lines 170-176: a meta element whose
property attribute starts with og: goes into og_tags keyed by the full
property; otherwise one with a truthy name attribute goes into meta_tags;
content defaults to the empty string. Returns (og_tags, meta_tags). -/
def collect_tags (metas : List (List (String × String))) :
    List (String × String) × List (String × String) :=
  metas.foldl
    (fun acc tag =>
      if strStartsWith (getAttrD tag "property" "") "og:" then
        (dinsert acc.1 (getAttrD tag "property" "") (getAttrD tag "content" ""), acc.2)
      else
        match getAttr tag "name" with
        | some n => if n.isEmpty then acc else (acc.1, dinsert acc.2 n (getAttrD tag "content" ""))
        | none => acc)
    ([], [])

/-! ## Node assembly and pipeline (parse_and_post_internal, 139-270) -/

/-- The page content the fetch produced, as far as the extraction reads
it: the string of the title element when the document has one, the
attribute lists of the meta elements in document order, and the body. -/
structure FetchedPage where
  titleText : Option String
  metas : List (List (String × String))
  body : Option HNode

/-- The title variable after src/main.py line 164: the cleaned title
string when the title element exists and its string is truthy. -/
def page_title (p : FetchedPage) : Option String :=
  match p.titleText with
  | some s => if s.isEmpty then none else clean_text (some s)
  | none => none

/-- The root node built in src/main.py lines 162-216. fallback stands for
the netloc and path concatenation of the parsed request url used at line
167 when the cleaned title is falsy; the name is title or url (line 179);
children are the capped sections followed by the metadata children of the
merged dicts, og entries assigned over the meta entries. -/
def build_root (fallback url : String) (p : FetchedPage) : TanaNode :=
  let t0 := page_title p
  let title := match t0 with
    | none => fallback
    | some t => if t.isEmpty then fallback else t
  let nm := if title.isEmpty then url else title
  let tags := collect_tags p.metas
  TanaNode.mk (some nm) none none none none
    (some (section_children 0 (extract_structured_content p.body)
      ++ meta_children (dmerge tags.2 tags.1)))

/-- The children list of a node (empty when the key is absent). -/
def rootChildren (n : TanaNode) : List TanaNode :=
  (TanaNode.childrenOf n).getD []

/-- Outcome of one request: the HTTP response seen by the caller (a raised
HTTPException with status and detail, or the success TanaResponse message
and status_code), together with the number of POST calls made to the Tana
endpoint, the diagnostic per-child reposts included. -/
structure PipelineResult where
  response : Except (Nat × String) (String × String)
  publishAttempts : Nat

/-- parse_and_post_internal, src/main.py lines 139-270, with the two
network effects as inputs: fetch is none when requests.get raised or the
page status was not 2xx (raise_for_status), and postOk tells whether the
Tana POST returned status 200 without raising. A failed fetch raises
HTTPException 400 before any Tana call; a failed post runs one diagnostic
POST per child of the root node and then raises HTTPException 502. -/
def parse_and_post_internal (url fallback : String) (fetch : Option FetchedPage)
    (postOk : Bool) : PipelineResult :=
  match fetch with
  | none => ⟨Except.error (400, "Failed to fetch URL"), 0⟩
  | some page =>
    let node := build_root fallback url page
    if postOk then
      ⟨Except.ok ("Content extracted and sent to Tana successfully.", "200"), 1⟩
    else
      ⟨Except.error (502, "Failed to post to Tana"), 1 + (rootChildren node).length⟩

/-- The endpoint handler parse_and_post, src/main.py lines 121-137:
parsed is the outcome of reading the request body (json.loads plus the
pydantic model when the body came as a string), none when that raised, in
which case HTTPException 422 is returned without touching the network;
otherwise the parsed url is handed to parse_and_post_internal. -/
def parse_and_post (parsed : Option (String × String × String))
    (fallback : String) (fetch : Option FetchedPage) (postOk : Bool) : PipelineResult :=
  match parsed with
  | none => ⟨Except.error (422, "Invalid request format"), 0⟩
  | some q => parse_and_post_internal q.1 fallback fetch postOk

/-! ## Tree walk over an emitted node tree -/

mutual
/-- A node and all nodes below it, in document order. -/
def treeNodes : TanaNode → List TanaNode
  | .mk n d t a f none => [.mk n d t a f none]
  | .mk n d t a f (some cs) => .mk n d t a f (some cs) :: treeNodesList cs

def treeNodesList : List TanaNode → List TanaNode
  | [] => []
  | c :: cs => treeNodes c ++ treeNodesList cs
end

/-- The children key is absent or holds an empty list. -/
def childrenGone : TanaNode → Bool
  | .mk _ _ _ _ _ none => true
  | .mk _ _ _ _ _ (some cs) => cs.isEmpty

/-- The description key holds a non-empty string. -/
def descTruthy (n : TanaNode) : Bool :=
  truthyOpt (TanaNode.descOf n)

/-! ## Cover image step, modelled from the spec

src/main.py contains no cover-image handling: og:image stays in og_tags
and no image is fetched (the imports of mimetypes and b64encode at lines
12-14 are unused leftovers of it). The definitions below therefore model
the missing step from the words of spec sections 4.4 and 4.5. -/

/-- Modelled from the spec: og:image is removed from ogTags and its value
returned separately as the cover-image URL candidate (spec 4.4); missing
from src/main.py. -/
def pop_og_image (og : List (String × String)) :
    Option String × List (String × String) :=
  match dlookup og "og:image" with
  | some v => (some v, og.filter (fun q => !(q.1 == "og:image")))
  | none => (none, og)

/-- Split a character list on a separator character; the result always
has one more part than there are separators. -/
def splitOnChar (c : Char) : List Char → List (List Char)
  | [] => [[]]
  | x :: xs =>
    let r := splitOnChar c xs
    if x = c then [] :: r
    else
      match r with
      | h :: t => (x :: h) :: t
      | [] => [[x]]

/-- Drop everything up to and including the first scheme separator. -/
def dropScheme : List Char → Option (List Char)
  | ':' :: '/' :: '/' :: rest => some rest
  | _ :: rest => dropScheme rest
  | [] => none

/-- Modelled from the spec: the last segment of the URL path, the scheme
and host stripped and the query and fragment dropped; the empty string
when the URL has no path; missing from src/main.py. -/
def url_last_path_segment (u : String) : String :=
  let cs := match dropScheme u.toList with
    | some rest => rest
    | none => u.toList
  let untilQuery := cs.takeWhile (fun c => !(c = '?') && !(c = '#'))
  match splitOnChar '/' untilQuery with
  | [] => ""
  | [_] => ""
  | segs => String.mk (segs.getLastD [])

/-- Modelled from the spec: the filename is the last segment of the URL
path, defaulting to image.jpg (spec 4.5 step 2); missing from src/main.py. -/
def image_filename (u : String) : String :=
  let seg := url_last_path_segment u
  if seg.isEmpty then "image.jpg" else seg

/-- Modelled from the spec: the MIME type is guessed from the filename,
defaulting to image/jpeg (spec 4.5 step 2); missing from src/main.py. -/
def guess_mime (filename : String) : String :=
  if strEndsWith filename ".png" then "image/png"
  else if strEndsWith filename ".gif" then "image/gif"
  else if strEndsWith filename ".webp" then "image/webp"
  else if strEndsWith filename ".svg" then "image/svg+xml"
  else "image/jpeg"

/-- Base64 alphabet. -/
def b64alphabet : List Char :=
  "ABCDEFGHIJKLMNOPQRSTUVWXYZabcdefghijklmnopqrstuvwxyz0123456789+/".toList

def b64digit (n : Nat) : Char :=
  b64alphabet.getD n 'A'

/-- Modelled from the spec: standard base64 of a byte sequence with
padding (spec 4.5 step 2 asks for base64-encoded bytes); the encoding
call is missing from src/main.py. -/
def b64encode : List Nat → String
  | [] => ""
  | [a] =>
    let x := (a % 256) * 65536
    String.mk [b64digit (x / 262144 % 64), b64digit (x / 4096 % 64)] ++ "=="
  | [a, b] =>
    let x := (a % 256) * 65536 + (b % 256) * 256
    String.mk [b64digit (x / 262144 % 64), b64digit (x / 4096 % 64),
      b64digit (x / 64 % 64)] ++ "="
  | a :: b :: c :: rest =>
    let x := (a % 256) * 65536 + (b % 256) * 256 + (c % 256)
    String.mk [b64digit (x / 262144 % 64), b64digit (x / 4096 % 64),
      b64digit (x / 64 % 64), b64digit (x % 64)] ++ b64encode rest

/-- Modelled from the spec: the separate image HTTP call uses a 10-second
timeout (spec 4.5 step 2); missing from src/main.py. -/
def IMAGE_FETCH_TIMEOUT_SECONDS : Nat := 10

/-- The outbound request the modelled image fetch issues. -/
structure ImageRequest where
  url : String
  timeoutSeconds : Nat
deriving DecidableEq, Repr

/-- Modelled from the spec: the image fetch call for a cover URL. -/
def image_request (u : String) : ImageRequest :=
  ⟨u, IMAGE_FETCH_TIMEOUT_SECONDS⟩

/-- Modelled from the spec: the Image child node built from a cover URL
and the fetched bytes, none when the fetch failed (spec 4.5 step 2, fetch
failure is non-fatal and the node is omitted); missing from src/main.py. -/
def image_node (u : String) (fetched : Option (List Nat)) : Option TanaNode :=
  match fetched with
  | none => none
  | some bs =>
    let fname := image_filename u
    some (TanaNode.mk (some "Image") none none none
      (some ⟨fname, guess_mime fname, b64encode bs⟩) none)

/-- Modelled from the spec: the root node as assembled with the cover
image step of spec 4.5 inserted; fetchImage gives the bytes of a
successful image fetch. The image child precedes the sections and the
metadata children; og:image is popped before the dict merge. -/
def build_root_with_image (fallback url : String) (p : FetchedPage)
    (fetchImage : String → Option (List Nat)) : TanaNode :=
  let t0 := page_title p
  let title := match t0 with
    | none => fallback
    | some t => if t.isEmpty then fallback else t
  let nm := if title.isEmpty then url else title
  let tags := collect_tags p.metas
  let popped := pop_og_image tags.1
  let img := match popped.1 with
    | some cu => (image_node cu (fetchImage cu)).toList
    | none => []
  TanaNode.mk (some nm) none none none none
    (some (img ++ section_children 0 (extract_structured_content p.body)
      ++ meta_children (dmerge tags.2 popped.2)))

/-- Modelled from the spec: the pipeline with the cover image step; an
image fetch failure never changes the response. -/
def parse_and_post_with_image (url fallback : String) (fetch : Option FetchedPage)
    (fetchImage : String → Option (List Nat)) (postOk : Bool) : PipelineResult :=
  match fetch with
  | none => ⟨Except.error (400, "Failed to fetch URL"), 0⟩
  | some page =>
    let node := build_root_with_image fallback url page fetchImage
    if postOk then
      ⟨Except.ok ("Content extracted and sent to Tana successfully.", "200"), 1⟩
    else
      ⟨Except.error (502, "Failed to post to Tana"), 1 + (rootChildren node).length⟩

/-- A fetched page with no title element, no meta elements and no body. -/
def emptyPage : FetchedPage :=
  { titleText := none, metas := [], body := none }

/-- Meta elements whose stored keys differ raw but agree after cleaning:
a meta tag whose name is og:x with a trailing space, and an og meta tag
whose property is og:x. -/
def c9_metas : List (List (String × String)) :=
  [[("name", "og:x "), ("content", "B")], [("property", "og:x"), ("content", "A")]]

/-! ## Sanity examples (concrete evaluations of the embedding) -/

example : pynorm "  a \r\n b\t c  " = "a b c" := by decide

example : clean_text (some "Undefined") = none := by decide

example : extract_rich_text
    (.tag "p" [] [.text "Hello ", .tag "a" [("href", "http://x.com")] [.text "world"], .text "!"])
    = some "Hello [world](http://x.com) world !" := by decide

example : b64encode [77, 97, 110] = "TWFu" := by decide

example : b64encode [77, 97] = "TWE=" := by decide

example : image_filename "http://h/a/pic.png" = "pic.png" := by decide

example : image_filename "http://h/" = "image.jpg" := by decide

/-! ## Helper lemmas -/

theorem isEmpty_map {α β : Type} (f : α → β) (l : List α) :
    (l.map f).isEmpty = l.isEmpty := by
  cases l <;> rfl

theorem dlookup_cons (p : String × String) (d : List (String × String)) (k : String) :
    dlookup (p :: d) k = if p.1 == k then some p.2 else dlookup d k := rfl

theorem dlookup_map_replace_ne (d : List (String × String)) (k v k' : String)
    (h : k' ≠ k) :
    dlookup (d.map (fun p => if p.1 == k then (k, v) else p)) k' = dlookup d k' := by
  induction d with
  | nil => rfl
  | cons p d ih =>
    rw [List.map_cons, dlookup_cons, dlookup_cons]
    by_cases hpk : (p.1 == k) = true
    · rw [if_pos hpk]
      have hk : p.1 = k := beq_iff_eq.mp hpk
      have h1 : ¬ ((((k, v) : String × String).1 == k') = true) := by
        simp only [beq_iff_eq]
        exact fun hc => h hc.symm
      have h2 : ¬ ((p.1 == k') = true) := by
        simp only [beq_iff_eq, hk]
        exact fun hc => h hc.symm
      rw [if_neg h1, if_neg h2]
      exact ih
    · rw [if_neg hpk]
      by_cases hpk' : (p.1 == k') = true
      · rw [if_pos hpk', if_pos hpk']
      · rw [if_neg hpk', if_neg hpk']
        exact ih

theorem dlookup_map_replace_eq (d : List (String × String)) (k v : String) :
    d.any (fun p => p.1 == k) = true →
      dlookup (d.map (fun p => if p.1 == k then (k, v) else p)) k = some v := by
  induction d with
  | nil => intro hm; simp at hm
  | cons p d ih =>
    intro hm
    rw [List.map_cons, dlookup_cons]
    by_cases hpk : (p.1 == k) = true
    · rw [if_pos hpk, if_pos (by simp)]
    · rw [if_neg hpk, if_neg hpk]
      apply ih
      simpa [hpk] using hm

theorem dlookup_append_one (d : List (String × String)) (k v : String) :
    (∀ p ∈ d, p.1 ≠ k) → dlookup (d ++ [(k, v)]) k = some v := by
  induction d with
  | nil => intro _; simp [dlookup]
  | cons p d ih =>
    intro h
    have hp : ¬ ((p.1 == k) = true) := by
      simp only [beq_iff_eq]
      exact h p (List.mem_cons_self p d)
    rw [List.cons_append, dlookup_cons, if_neg hp]
    exact ih (fun q hq => h q (List.mem_cons_of_mem p hq))

theorem dlookup_append_one_ne (d : List (String × String)) (k v k' : String)
    (h : k' ≠ k) : dlookup (d ++ [(k, v)]) k' = dlookup d k' := by
  induction d with
  | nil =>
    have : ¬ ((((k, v) : String × String).1 == k') = true) := by
      simp only [beq_iff_eq]
      exact fun hc => h hc.symm
    simp only [List.nil_append, dlookup_cons, if_neg this]
  | cons p d ih =>
    rw [List.cons_append, dlookup_cons, dlookup_cons]
    by_cases hpk' : (p.1 == k') = true
    · rw [if_pos hpk', if_pos hpk']
    · rw [if_neg hpk', if_neg hpk']
      exact ih

/-- Lookup after a dict assignment: the assigned key maps to the new
value and every other key is untouched. -/
theorem dlookup_dinsert (d : List (String × String)) (k v k' : String) :
    dlookup (dinsert d k v) k' = if k' = k then some v else dlookup d k' := by
  unfold dinsert
  by_cases hmem : d.any (fun p => p.1 == k) = true
  · rw [if_pos hmem]
    by_cases hk : k' = k
    · subst hk; rw [if_pos rfl]; exact dlookup_map_replace_eq d k' v hmem
    · rw [if_neg hk]; exact dlookup_map_replace_ne d k v k' hk
  · rw [if_neg hmem]
    have hall : ∀ p ∈ d, p.1 ≠ k := by
      intro p hp hc
      exact hmem (List.any_eq_true.mpr ⟨p, hp, by simp [hc]⟩)
    by_cases hk : k' = k
    · subst hk
      rw [if_pos rfl]
      exact dlookup_append_one d k' v hall
    · rw [if_neg hk]
      exact dlookup_append_one_ne d k v k' hk

/-- After merging og over meta, a key absent from og keeps its meta
value. -/
theorem dlookup_dmerge_left (o : List (String × String)) :
    ∀ (m : List (String × String)) (k : String),
      (∀ p ∈ o, p.1 ≠ k) → dlookup (dmerge m o) k = dlookup m k := by
  induction o with
  | nil => intro m k _; rfl
  | cons p o ih =>
    intro m k hp
    have hstep : dmerge m (p :: o) = dmerge (dinsert m p.1 p.2) o := rfl
    rw [hstep, ih _ k (fun q hq => hp q (List.mem_cons_of_mem p hq)), dlookup_dinsert]
    rw [if_neg (fun hc => hp p (List.mem_cons_self p o) hc.symm)]

/-- After merging og over meta, a key held by og (with unique og keys)
maps to the og value. -/
theorem dlookup_dmerge_right (o : List (String × String)) :
    ∀ (m : List (String × String)) (k v : String),
      (o.map Prod.fst).Nodup → (k, v) ∈ o → dlookup (dmerge m o) k = some v := by
  induction o with
  | nil => intro m k v _ hmem; simp at hmem
  | cons p o ih =>
    intro m k v hnd hmem
    have hstep : dmerge m (p :: o) = dmerge (dinsert m p.1 p.2) o := rfl
    rw [List.map_cons, List.nodup_cons] at hnd
    rcases List.mem_cons.mp hmem with heq | hmem2
    · cases heq
      have hnot : ∀ q ∈ o, q.1 ≠ k := by
        intro q hq hcontra
        apply hnd.1
        rw [List.mem_map]
        exact ⟨q, hq, hcontra⟩
      rw [hstep, dlookup_dmerge_left o _ k hnot, dlookup_dinsert, if_pos rfl]
    · rw [hstep]
      exact ih _ k v hnd.2 hmem2

/-- Closed form of the capped section loop: the sections kept are those of
the first 100 minus the running index, and the clip marker is appended
exactly when the input runs past the cap. -/
theorem section_children_closed (ss : List Section) : ∀ i : Nat,
    section_children i ss =
      ((ss.take (MAX_SECTIONS - i)).filter sectionKept).map sectionToNode
        ++ (if MAX_SECTIONS - i < ss.length then [clipMarker] else []) := by
  induction ss with
  | nil =>
    intro i
    simp [section_children]
  | cons s rest ih =>
    intro i
    by_cases h : MAX_SECTIONS ≤ i
    · have h0 : MAX_SECTIONS - i = 0 := Nat.sub_eq_zero_of_le h
      simp [section_children, h, h0]
    · have h1 : MAX_SECTIONS - i = (MAX_SECTIONS - (i + 1)) + 1 := by omega
      rw [section_children, if_neg h, ih (i + 1), h1, List.take_succ_cons,
        List.filter_cons]
      by_cases hlen : MAX_SECTIONS - (i + 1) < rest.length
      · have hlen2 : (MAX_SECTIONS - (i + 1)) + 1 < (s :: rest).length := by
          rw [List.length_cons]; omega
        rw [if_pos hlen, if_pos hlen2]
        by_cases hk : sectionKept s
        · simp [hk]
        · simp [hk]
      · have hlen2 : ¬ ((MAX_SECTIONS - (i + 1)) + 1 < (s :: rest).length) := by
          rw [List.length_cons]; omega
        rw [if_neg hlen, if_neg hlen2]
        by_cases hk : sectionKept s
        · simp [hk]
        · simp [hk]

/-- Below the cap the section loop is exactly filter then map. -/
theorem section_children_of_le (ss : List Section) (h : ss.length ≤ MAX_SECTIONS) :
    section_children 0 ss = (ss.filter sectionKept).map sectionToNode := by
  rw [section_children_closed ss 0, Nat.sub_zero,
    List.take_of_length_le h, if_neg (by omega), List.append_nil]

/-! ## Claim C1 -/

/-- Claim C1: the specification says the Section Builder traversal never
visits a descendant of a nav, summary or details element, so the body
nav p skip close p keep would yield one section with paragraph list keep
only. The code at src/main.py lines 100-104 uses continue inside a flat
find_all loop, which skips only the container element itself: the
paragraph inside nav is still visited, and the body yields one section
with paragraph list [skip, keep]. This theorem evaluates the embedding at
the claim's own example and exhibits the divergence. -/
theorem C1_nav_subtree_still_visited :
    extract_structured_content (some (.tag "body" []
        [.tag "nav" [] [.tag "p" [] [.text "skip"]],
         .tag "p" [] [.text "keep"]]))
      = [{ name := some "", children := ["skip", "keep"] }] := by
  decide

/-! ## Claim C2 -/

/-- Claim C2: the specification says an anchor contributes exactly one
bracketed link fragment and its text is not emitted again, so the example
paragraph would yield the string Hello [world](http://x.com) ! .
In the code, extract_rich_text iterates element.descendants, and the
string node inside the anchor is itself a descendant, so the anchor text
is emitted a second time as a plain fragment: the example yields
Hello [world](http://x.com) world ! . This theorem evaluates the
embedding at the claim's own example and exhibits the divergence. -/
theorem C2_anchor_text_duplicated :
    extract_rich_text (.tag "p" []
        [.text "Hello ", .tag "a" [("href", "http://x.com")] [.text "world"], .text "!"])
      = some "Hello [world](http://x.com) world !" := by
  decide

/-! ## Claim C3 -/

/-- Claim C3 counterexample: the claim says a section with non-empty
children is emitted even when its name is empty, and in particular the
unnamed pre-heading section holding content is emitted. In the code the
filter at src/main.py line 195 requires a truthy name, so the unnamed
section with one paragraph produces no node at all. -/
theorem C3_counterexample :
    section_children 0 [{ name := some "", children := ["keep"] }] = []
      ∧ ({ name := some "", children := ["keep"] } : Section).children ≠ [] := by
  exact ⟨rfl, by decide⟩

/-- Claim C3 amended: a section becomes a child node exactly when its name
is truthy (present and non-empty) and its children are non-empty; the
unnamed section holding content that appears before the first heading is
therefore dropped, not emitted. Below the cap the appended children are
precisely the filtered sections in order. -/
theorem C3_section_gate (ss : List Section) (h : ss.length ≤ MAX_SECTIONS) :
    section_children 0 ss = (ss.filter sectionKept).map sectionToNode
      ∧ ∀ s : Section, sectionKept s = (truthyOpt s.name && !s.children.isEmpty) := by
  refine ⟨section_children_of_le ss h, fun s => rfl⟩

/-- Claim C3 witness: the gate theorem applied to a concrete singleton
list of sections. -/
theorem C3_section_gate_witness :
    section_children 0 [{ name := some "A", children := ["x"] }]
        = ([{ name := some "A", children := ["x"] }].filter sectionKept).map sectionToNode
      ∧ sectionKept { name := some "", children := ["keep"] }
        = (truthyOpt (some "") && !(["keep"] : List String).isEmpty) :=
  ⟨(C3_section_gate [{ name := some "A", children := ["x"] }] (by decide)).1,
   (C3_section_gate [{ name := some "A", children := ["x"] }] (by decide)).2
     { name := some "", children := ["keep"] }⟩

/-! ## Claim C5 -/

/-- Claim C5: at most 100 sections are appended (the kept sections among
the first 100), with the clip marker appended exactly once after them
when more than 100 sections are present and nothing after it; 150
sections with truthy names and one paragraph each yield exactly 101
section-derived children. -/
theorem C5_section_cap :
    (∀ ss : List Section,
        section_children 0 ss
          = ((ss.take 100).filter sectionKept).map sectionToNode
            ++ (if 100 < ss.length then [clipMarker] else []))
      ∧ (section_children 0
          (List.replicate 150 { name := some "S", children := ["x"] })).length = 101 := by
  constructor
  · intro ss
    have := section_children_closed ss 0
    rwa [Nat.sub_zero] at this
  · have hkept : sectionKept { name := some "S", children := ["x"] } = true := by decide
    rw [section_children_closed _ 0, Nat.sub_zero,
      show MAX_SECTIONS = 100 from rfl, List.take_replicate, List.filter_replicate, hkept]
    norm_num

/-! ## Claim C6 -/

/-- Claim C6 counterexample: the claim says any letter case of undefined,
with or without surrounding double quotes, yields absent. The code at
src/main.py line 58 compares the quoted form before lowering, so the
quoted uppercase form is returned unchanged and is not absent. -/
theorem C6_counterexample :
    clean_text (some "\"UNDEFINED\"") = some "\"UNDEFINED\""
      ∧ is_absent (some "\"UNDEFINED\"") = false := by
  exact ⟨by decide, by decide⟩

/-- Claim C6 amended: the normalizer returns absent for input whose
normalized form lowercases to the bare word undefined, for input whose
normalized form is exactly the lowercase quoted string, for absent input,
and for input that is empty after normalization (the empty string result
counting as absent); quoted forms in other letter cases pass through. -/
theorem C6_undefined_sentinel :
    (∀ s : String, pylower (pynorm s) = "undefined" → clean_text (some s) = none)
      ∧ (∀ s : String, pynorm s = "\"undefined\"" → clean_text (some s) = none)
      ∧ clean_text none = none
      ∧ (∀ s : String, pynorm s = "" → is_absent (clean_text (some s)) = true) := by
  refine ⟨?_, ?_, rfl, ?_⟩
  · intro s hs
    by_cases he : s.isEmpty
    · simp [clean_text, he]
    · simp [clean_text, he, hs]
  · intro s hs
    by_cases he : s.isEmpty
    · simp [clean_text, he]
    · simp [clean_text, he, hs]
  · intro s hs
    by_cases he : s.isEmpty
    · simp [clean_text, he, is_absent]
    · simp [clean_text, he, hs, is_absent,
        show pylower "" = "" from rfl]
      decide

/-- Claim C6 witness: the sentinel theorem applied at concrete inputs. -/
theorem C6_undefined_sentinel_witness :
    clean_text (some "UNDEFINED") = none
      ∧ clean_text (some " \"undefined\" ") = none
      ∧ is_absent (clean_text (some "   ")) = true :=
  ⟨C6_undefined_sentinel.1 "UNDEFINED" (by decide),
   C6_undefined_sentinel.2.1 " \"undefined\" " (by decide),
   C6_undefined_sentinel.2.2.2 "   " (by decide)⟩

/-! ## Claim C7 -/

theorem sectionToNode_children_nonempty (s : Section) (h : sectionKept s = true) :
    childrenGone (sectionToNode s) = false := by
  rcases s with ⟨nm, cs⟩
  cases cs with
  | nil => simp [sectionKept] at h
  | cons c cs => rfl

theorem metaEntry_shape (kv : String × String) (n : TanaNode)
    (h : metaEntry kv = some n) : ∃ k v, n = metaNode k v := by
  rcases h1 : clean_text (some kv.1) with _ | k
  · simp [metaEntry, h1] at h
  · rcases h2 : clean_text (some kv.2) with _ | v
    · simp [metaEntry, h1, h2] at h
    · simp only [metaEntry, h1, h2] at h
      split at h
      · exact ⟨k, v, (Option.some.injEq _ _ ▸ h).symm⟩
      · simp at h

/-- Claim C7 counterexample: the claim says every node of the emitted tree
with empty or absent children has a non-empty description, including for a
page with no sections and no metadata. On such a page the code emits the
root node itself with children equal to the empty list and description
None (src/main.py lines 178-182), refuting the claim. -/
theorem C7_counterexample :
    ¬ (∀ n ∈ treeNodes (build_root "example.com/" "http://example.com/" emptyPage),
        childrenGone n = true → descTruthy n = true) := by
  intro h
  have hroot : build_root "example.com/" "http://example.com/" emptyPage
      = TanaNode.mk (some "example.com/") none none none none (some []) := rfl
  have hmem : TanaNode.mk (some "example.com/") none none none none (some [])
      ∈ treeNodes (build_root "example.com/" "http://example.com/" emptyPage) := by
    rw [hroot]
    simp [treeNodes, treeNodesList]
  have hfalse := h _ hmem rfl
  simp [descTruthy, TanaNode.descOf, truthyOpt] at hfalse

/-- Claim C7 amended: the invariant holds one level down, as the spec
parenthetical intends it for sections: every direct child of the emitted
root node has non-empty children or a non-empty description (content-less
sections are dropped, the clip marker carries a description, and each
metadata child holds a field child). The root itself and the leaf nodes
may have empty children and no description. -/
theorem C7_root_children_content (fallback url : String) (p : FetchedPage) :
    ∀ c ∈ rootChildren (build_root fallback url p),
      childrenGone c = false ∨ descTruthy c = true := by
  intro c hc
  have hsplit : rootChildren (build_root fallback url p)
      = section_children 0 (extract_structured_content p.body)
        ++ meta_children (dmerge (collect_tags p.metas).2 (collect_tags p.metas).1) := rfl
  rw [hsplit] at hc
  rcases List.mem_append.mp hc with hsec | hmeta
  · rw [section_children_closed _ 0] at hsec
    rcases List.mem_append.mp hsec with hflt | hmark
    · rcases List.mem_map.mp hflt with ⟨s, hs, rfl⟩
      exact Or.inl (sectionToNode_children_nonempty s (List.of_mem_filter hs))
    · right
      split at hmark
      · rw [List.mem_singleton.mp hmark]
        decide
      · simp at hmark
  · rcases List.mem_filterMap.mp hmeta with ⟨kv, _, hsome⟩
    rcases metaEntry_shape kv c hsome with ⟨k, v, rfl⟩
    exact Or.inl rfl

/-- Claim C7 witness: the amended invariant applied to a concrete page
holding one meta tag, whose root has exactly one metadata child. -/
theorem C7_root_children_content_witness :
    childrenGone (metaNode "a" "b") = false ∨ descTruthy (metaNode "a" "b") = true :=
  C7_root_children_content "f" "u"
    { titleText := none, metas := [[("name", "a"), ("content", "b")]], body := none }
    (metaNode "a" "b")
    (by rw [show rootChildren (build_root "f" "u"
        { titleText := none, metas := [[("name", "a"), ("content", "b")]], body := none })
          = [metaNode "a" "b"] from rfl]
        exact List.mem_singleton.mpr rfl)

/-! ## Claim C8 -/

/-- Claim C8: a failed page fetch (unreachable URL or non-2xx status)
aborts the request with HTTPException status 400 and detail Failed to
fetch URL, before any POST to the Tana endpoint is attempted, both
through the bare pipeline and through the endpoint handler; a request
body that fails parsing yields status 422 with no network activity; a
failed publish yields status 502. -/
theorem C8_error_statuses :
    (∀ (url fallback : String) (postOk : Bool),
        (parse_and_post_internal url fallback none postOk).response
            = Except.error (400, "Failed to fetch URL")
          ∧ (parse_and_post_internal url fallback none postOk).publishAttempts = 0)
      ∧ (∀ (q : String × String × String) (fallback : String) (postOk : Bool),
          (parse_and_post (some q) fallback none postOk).response
              = Except.error (400, "Failed to fetch URL")
            ∧ (parse_and_post (some q) fallback none postOk).publishAttempts = 0)
      ∧ (∀ (fallback : String) (fetch : Option FetchedPage) (postOk : Bool),
          (parse_and_post none fallback fetch postOk).response
              = Except.error (422, "Invalid request format")
            ∧ (parse_and_post none fallback fetch postOk).publishAttempts = 0)
      ∧ (∀ (url fallback : String) (page : FetchedPage),
          (parse_and_post_internal url fallback (some page) false).response
              = Except.error (502, "Failed to post to Tana")) :=
  ⟨fun _ _ _ => ⟨rfl, rfl⟩, fun _ _ _ => ⟨rfl, rfl⟩,
   fun _ _ _ => ⟨rfl, rfl⟩, fun _ _ _ => rfl⟩

/-! ## Claim C9 -/

/-- Claim C9 counterexample: the claim says that when an og key and a meta
key map to the same key after normalization, exactly one metadata child is
emitted for that key, carrying the og value. The merge at src/main.py
line 199 is on raw keys: the meta key og:x with a trailing space and the
og key og:x survive the merge as two entries, normalize to the same
display key, and produce two children, the first carrying the meta value. -/
theorem C9_counterexample :
    meta_children (dmerge (collect_tags c9_metas).2 (collect_tags c9_metas).1)
        = [metaNode "og:x" "B", metaNode "og:x" "A"]
      ∧ ((dmerge (collect_tags c9_metas).2 (collect_tags c9_metas).1).map
          (fun kv => clean_text (some kv.1))).count (some "og:x") = 2 := by
  exact ⟨rfl, by decide⟩

/-- Claim C9 amended: og tags override meta tags on raw-key collision,
last write wins: after the double-star merge, a key held by og (og keys
are unique, being dict keys) maps to the og value and a key absent from
og keeps its meta value; one metadata child is emitted per merged raw
entry whose cleaned key and value are truthy, so raw-distinct keys that
normalize to the same display key each appear as their own child. -/
theorem C9_merge_semantics :
    (∀ (m o : List (String × String)) (k v : String),
        (o.map Prod.fst).Nodup → (k, v) ∈ o → dlookup (dmerge m o) k = some v)
      ∧ (∀ (m o : List (String × String)) (k : String),
          (∀ p ∈ o, p.1 ≠ k) → dlookup (dmerge m o) k = dlookup m k)
      ∧ (∀ (kv : String × String) (l : List (String × String)),
          meta_children (kv :: l) = (metaEntry kv).toList ++ meta_children l) := by
  refine ⟨fun m o k v hnd hmem => dlookup_dmerge_right o m k v hnd hmem,
    fun m o k hp => dlookup_dmerge_left o m k hp, fun kv l => ?_⟩
  simp only [meta_children, List.filterMap_cons]
  cases metaEntry kv <;> simp

/-- Claim C9 witness: the merge semantics applied to concrete dicts. -/
theorem C9_merge_semantics_witness :
    dlookup (dmerge [("a", "1")] [("a", "2")]) "a" = some "2"
      ∧ dlookup (dmerge [("b", "1")] [("a", "2")]) "b" = dlookup [("b", "1")] "b" :=
  ⟨C9_merge_semantics.1 [("a", "1")] [("a", "2")] "a" "2" (by decide) (by decide),
   C9_merge_semantics.2.1 [("b", "1")] [("a", "2")] "b" (by decide)⟩

/-! ## Claim C10 -/

/-- Claim C10: a merged metadata pair whose key and value both clean to
truthy strings becomes a child named Meta: followed by the cleaned key,
with no description; the cleaned value is not a description but sits two
levels down, as the name of the single child of a field child with
attributeId nodeID (src/main.py lines 199-216). -/
theorem C10_meta_child_shape (key value k v : String)
    (hk : clean_text (some key) = some k) (hv : clean_text (some value) = some v)
    (hk2 : k.isEmpty = false) (hv2 : v.isEmpty = false) :
    metaEntry (key, value)
      = some (TanaNode.mk (some ("Meta: " ++ k)) none none none none
          (some [TanaNode.mk none none (some "field") (some "nodeID") none
            (some [TanaNode.mk (some v) none none none none none])])) := by
  simp [metaEntry, hk, hv, hk2, hv2, metaNode, leafNode]

/-- Claim C10 witness: the shape theorem applied to a key that cleaning
changes (a trailing space is stripped), showing the child is named by the
cleaned key, not the bare key. -/
theorem C10_meta_child_shape_witness :
    metaEntry ("og:title ", "T")
      = some (TanaNode.mk (some ("Meta: " ++ "og:title")) none none none none
          (some [TanaNode.mk none none (some "field") (some "nodeID") none
            (some [TanaNode.mk (some "T") none none none none none])])) :=
  C10_meta_child_shape "og:title " "T" "og:title" "T"
    (by decide) (by decide) (by decide) (by decide)

/-! ## Claim C4 -/

theorem dlookup_filter_ne (d : List (String × String)) (k : String) :
    dlookup (d.filter (fun q => !(q.1 == k))) k = none := by
  induction d with
  | nil => rfl
  | cons p d ih =>
    by_cases hpk : (p.1 == k) = true
    · simp [List.filter_cons, hpk, ih]
    · simp [List.filter_cons, hpk, dlookup_cons, ih]

/-- Claim C4, settled against the model of the missing cover-image step:
when og:image is present in the og dict, the pop removes that key and
yields its URL; the image fetch request carries a 10-second timeout; on
success the appended child is named Image and carries a file whose name
is the last URL path segment (default image.jpg), whose MIME type is
guessed from that filename (default image/jpeg) and whose content is the
base64 encoding of the bytes; on fetch failure the image node is omitted
and the pipeline still succeeds. -/
theorem C4_cover_image (og : List (String × String)) (u : String)
    (h : dlookup og "og:image" = some u) :
    (pop_og_image og).1 = some u
      ∧ dlookup (pop_og_image og).2 "og:image" = none
      ∧ image_request u = { url := u, timeoutSeconds := 10 }
      ∧ (∀ bs : List Nat,
          image_node u (some bs)
            = some (TanaNode.mk (some "Image") none none none
                (some { name := image_filename u,
                        mimeType := guess_mime (image_filename u),
                        content := b64encode bs }) none))
      ∧ image_node u none = none
      ∧ (∀ (url fallback : String) (p : FetchedPage),
          (parse_and_post_with_image url fallback (some p) (fun _ => none) true).response
            = Except.ok ("Content extracted and sent to Tana successfully.", "200")) := by
  refine ⟨?_, ?_, rfl, fun bs => rfl, rfl, fun url fallback p => rfl⟩
  · unfold pop_og_image
    rw [h]
  · unfold pop_og_image
    rw [h]
    exact dlookup_filter_ne og "og:image"

/-- Claim C4 witness: the cover image theorem applied to a concrete og
dict holding one image URL. -/
theorem C4_cover_image_witness :
    (pop_og_image [("og:image", "http://h/pic.png")]).1 = some "http://h/pic.png"
      ∧ image_node "http://h/pic.png" none = none :=
  ⟨(C4_cover_image [("og:image", "http://h/pic.png")] "http://h/pic.png" (by decide)).1,
   (C4_cover_image [("og:image", "http://h/pic.png")] "http://h/pic.png"
     (by decide)).2.2.2.2.1⟩
